import Mathlib

/-!
Verification of the FPL dashboard's fixture-difficulty engine and
rolling-form aggregator, shallowly embedded from the Python source
(`utils/fixture_analyzer.py`, `utils/scraper.py`,
`pages/1_Overview.py`, `pages/2_Player_Detail.py`).

Numeric values are modelled as exact rationals (`ℚ`); Python's
`round(x, 2)` is modelled as rounding `100*x` to the nearest integer
(ties upward; the claims below never hit a tie).
-/

namespace FPL

/-- Rounding to 2 decimal places, `round(x, 2)` in the source. -/
def round2 (x : ℚ) : ℚ := ((round (x * 100) : ℤ) : ℚ) / 100

/-- A team record, `self.teams[id]` in `FixtureAnalyzer.initialize`
(only the fields `calculate_fixture_difficulty` reads). -/
structure Team where
  name : String
  strength_overall_home : ℚ
  strength_overall_away : ℚ

/-- One row of `team_form_df`.  The optional fields model
`row.get('goals_conceded_per_game', default)` / `row.get('goals_per_game', default)`:
`none` means the column is absent and the call-site default applies. -/
structure FormRow where
  team : String
  goals_conceded_per_game : Option ℚ
  goals_per_game : Option ℚ

/-- Row selection `team_form_df[team_form_df['team'] == name]` followed by
`.iloc[0]` (first matching row), guarded by the `not team_form_df.empty`
check; `none` models `team_form_df is None`. -/
def formLookup (form : Option (List FormRow)) (name : String) : Option FormRow :=
  match form with
  | none => none
  | some df => if df.isEmpty then none else (df.filter (fun r => r.team == name)).head?

/-- Step 3 of `calculate_fixture_difficulty`:
`max(0, min(1, (2.0 - goals_conceded) / 1.5))`. -/
def defensive_form_subscore (goals_conceded : ℚ) : ℚ :=
  max 0 (min 1 ((2 - goals_conceded) / (3/2)))

/-- Step 4 of `calculate_fixture_difficulty`:
`max(0, min(1, (goals_scored - 0.5) / 2.0))`. -/
def attacking_threat_subscore (goals_scored : ℚ) : ℚ :=
  max 0 (min 1 ((goals_scored - 1/2) / 2))

/-- Step 5 of `calculate_fixture_difficulty`:
`-max(0, min(0.5, (goals_scored - 1.0) / 2.0))`. -/
def team_form_factor_of (goals_scored : ℚ) : ℚ :=
  -(max 0 (min (1/2) ((goals_scored - 1) / 2)))

/-- Weighted combination inside `FixtureAnalyzer.calculate_fixture_difficulty`
(fixture_analyzer.py, lines 160–207), before the final clamp and rounding:
base strength (venue-specific, /1000, ×5, weight 0.4), venue term ∓0.5,
opponent defensive form (weight 0.8), opponent attacking threat
(weight 0.4), own form factor (additive). -/
def fixture_difficulty_raw (team opponent : Team) (is_home : Bool)
    (team_form_df : Option (List FormRow)) : ℚ :=
  let opponent_strength :=
    (if is_home then opponent.strength_overall_away else opponent.strength_overall_home) / 1000
  let base_difficulty := opponent_strength * 5
  let home_advantage : ℚ := if is_home then -(1/2) else 1/2
  let defensive_difficulty :=
    match formLookup team_form_df opponent.name with
    | none => 0
    | some row => defensive_form_subscore (row.goals_conceded_per_game.getD (3/2))
  let attacking_threat :=
    match formLookup team_form_df opponent.name with
    | none => 0
    | some row => attacking_threat_subscore (row.goals_per_game.getD (3/2))
  let team_form_factor :=
    match formLookup team_form_df team.name with
    | none => 0
    | some row => team_form_factor_of (row.goals_per_game.getD 1)
  base_difficulty * (2/5) + home_advantage + defensive_difficulty * (4/5) +
    attacking_threat * (2/5) + team_form_factor

/-- `FixtureAnalyzer.calculate_fixture_difficulty` (fixture_analyzer.py,
lines 143–212): the weighted combination, clamped to [1,5]
(`max(1.0, min(5.0, difficulty))`) and rounded to 2 decimal places. -/
def calculate_fixture_difficulty (team opponent : Team) (is_home : Bool)
    (team_form_df : Option (List FormRow)) : ℚ :=
  round2 (max 1 (min 5 (fixture_difficulty_raw team opponent is_home team_form_df)))

/-! Helper lemmas about `round2` and the clamp. -/

lemma round_le_round {x y : ℚ} (h : x ≤ y) : round x ≤ round y := by
  rw [round_eq, round_eq]
  exact Int.floor_le_floor (by linarith)

lemma round2_le_round2 {x y : ℚ} (h : x ≤ y) : round2 x ≤ round2 y := by
  unfold round2
  have hr : round (x * 100) ≤ round (y * 100) := round_le_round (by linarith)
  have : ((round (x * 100) : ℤ) : ℚ) ≤ ((round (y * 100) : ℤ) : ℚ) := by exact_mod_cast hr
  linarith

lemma round2_intMul (k : ℤ) : round2 ((k : ℚ) / 100) = (k : ℚ) / 100 := by
  unfold round2
  rw [div_mul_cancel₀ _ (by norm_num : (100:ℚ) ≠ 0), round_intCast]

lemma round2_clamp_mem (d : ℚ) : round2 (max 1 (min 5 d)) ∈ Set.Icc (1:ℚ) 5 := by
  have h1 : (1:ℚ) ≤ max 1 (min 5 d) := le_max_left _ _
  have h5 : max 1 (min 5 d) ≤ 5 := max_le (by norm_num) (min_le_left _ _)
  constructor
  · have := round2_le_round2 h1
    have e : round2 1 = 1 := by
      have := round2_intMul 100
      norm_num at this
      simpa using this
    linarith
  · have := round2_le_round2 h5
    have e : round2 5 = 5 := by
      have := round2_intMul 500
      norm_num at this
      simpa using this
    linarith

lemma round2_clamp_mono {x y : ℚ} (h : x ≤ y) :
    round2 (max 1 (min 5 x)) ≤ round2 (max 1 (min 5 y)) :=
  round2_le_round2 (max_le_max le_rfl (min_le_min le_rfl h))

/-- With `team_form_df = None` every form term is 0, leaving only the
weighted base strength and the venue term. -/
lemma raw_no_form (team opponent : Team) (is_home : Bool) :
    fixture_difficulty_raw team opponent is_home none =
      (2/5) * 5 *
        ((if is_home then opponent.strength_overall_away else opponent.strength_overall_home) / 1000) +
      (if is_home then -(1/2) else (1/2)) := by
  simp [fixture_difficulty_raw, formLookup]
  cases is_home <;> simp <;> ring

/-- An empty form table behaves exactly like an absent one. -/
lemma raw_empty_form (team opponent : Team) (is_home : Bool) :
    fixture_difficulty_raw team opponent is_home (some []) =
      fixture_difficulty_raw team opponent is_home none := by
  simp [fixture_difficulty_raw, formLookup]

/-- C1: for every pair of opponent strength ratings in [0, 2000], every
venue flag and any (possibly absent) team-form table, the score returned
by `calculate_fixture_difficulty` lies within [1.0, 5.0] inclusive and is
a whole number of hundredths (rounded to 2 decimal places). -/
theorem fixture_difficulty_in_range (team opponent : Team) (is_home : Bool)
    (form : Option (List FormRow))
    (hh : opponent.strength_overall_home ∈ Set.Icc (0:ℚ) 2000)
    (ha : opponent.strength_overall_away ∈ Set.Icc (0:ℚ) 2000) :
    calculate_fixture_difficulty team opponent is_home form ∈ Set.Icc (1:ℚ) 5 ∧
    ∃ k : ℤ, calculate_fixture_difficulty team opponent is_home form = (k : ℚ) / 100 :=
  ⟨round2_clamp_mem (fixture_difficulty_raw team opponent is_home form),
   ⟨round (max 1 (min 5 (fixture_difficulty_raw team opponent is_home form)) * 100), rfl⟩⟩

/-- Witness for C1 at the concrete teams of the spec's worked example. -/
theorem fixture_difficulty_in_range_witness :
    (⟨"O", 1000, 1300⟩ : Team).strength_overall_home ∈ Set.Icc (0:ℚ) 2000 ∧
    (⟨"O", 1000, 1300⟩ : Team).strength_overall_away ∈ Set.Icc (0:ℚ) 2000 ∧
    (calculate_fixture_difficulty ⟨"T", 1200, 1100⟩ ⟨"O", 1000, 1300⟩ true none ∈
        Set.Icc (1:ℚ) 5 ∧
      ∃ k : ℤ,
        calculate_fixture_difficulty ⟨"T", 1200, 1100⟩ ⟨"O", 1000, 1300⟩ true none =
          (k : ℚ) / 100) :=
  ⟨by constructor <;> norm_num, by constructor <;> norm_num,
   fixture_difficulty_in_range ⟨"T", 1200, 1100⟩ ⟨"O", 1000, 1300⟩ true none
     (by constructor <;> norm_num) (by constructor <;> norm_num)⟩

/-- C4 counterexample: for the spec's worked example (opponent away
overall strength 1300, home venue, no form data) the code returns 2.1,
not 5.0 — the example in the spec forgets the 0.4 weight on the base
strength term. -/
theorem fixture_example_score_ne_five :
    calculate_fixture_difficulty ⟨"T", 1200, 1100⟩ ⟨"O", 1000, 1300⟩ true none ≠ 5 := by
  norm_num [calculate_fixture_difficulty, fixture_difficulty_raw, formLookup, round2, round_eq]

/-- C4 (amended): for a home team facing an opponent whose away overall
strength is 1300, with no team-form data, `calculate_fixture_difficulty`
returns 2.1 (weighted base 0.4 × 6.5 = 2.6, venue term −0.5, total 2.1,
already inside [1, 5]). -/
theorem fixture_example_score_eq :
    calculate_fixture_difficulty ⟨"T", 1200, 1100⟩ ⟨"O", 1000, 1300⟩ true none = 21/10 := by
  norm_num [calculate_fixture_difficulty, fixture_difficulty_raw, formLookup, round2, round_eq]

/-- C5 counterexample: the defensive-form sub-score is NOT higher when
the opponent concedes more — at 2.0 goals conceded per game it is 0,
while at 0.5 it is 1. -/
theorem defensive_subscore_increasing_fails :
    defensive_form_subscore 2 < defensive_form_subscore (1/2) := by
  norm_num [defensive_form_subscore]

/-- C5 (amended): the opponent defensive-form sub-score is LOWER (or
equal) for the input in which the opponent concedes more goals per game —
more goals conceded means an easier fixture, i.e. a smaller contribution
to the difficulty score. -/
theorem defensive_subscore_antitone (g₁ g₂ : ℚ) (h : g₁ ≤ g₂) :
    defensive_form_subscore g₂ ≤ defensive_form_subscore g₁ := by
  unfold defensive_form_subscore
  exact max_le_max le_rfl (min_le_min le_rfl (by linarith))

/-- Witness for C5 (amended) at 0.5 ≤ 2.0 goals conceded per game. -/
theorem defensive_subscore_antitone_witness :
    (1/2 : ℚ) ≤ 2 ∧ defensive_form_subscore 2 ≤ defensive_form_subscore (1/2) :=
  ⟨by norm_num, defensive_subscore_antitone (1/2) 2 (by norm_num)⟩

/-- C7 counterexample: with strengths inside [0, 2000] (opponent home
strength 0, away strength 2000) the home score 3.5 strictly exceeds the
away score 1.0, because the two venues read different strength fields. -/
theorem home_score_exceeds_away_at_extreme :
    calculate_fixture_difficulty ⟨"T", 0, 0⟩ ⟨"O", 0, 2000⟩ false none <
      calculate_fixture_difficulty ⟨"T", 0, 0⟩ ⟨"O", 0, 2000⟩ true none := by
  norm_num [calculate_fixture_difficulty, fixture_difficulty_raw, formLookup, round2, round_eq]

/-- C7 (amended): the home-venue score is ≤ the away-venue score for the
same team, opponent and form inputs whenever the opponent's away overall
strength exceeds its home overall strength by at most 500 (in particular
whenever the two venue strengths are equal). -/
theorem home_le_away_of_bounded_gap (team opponent : Team) (form : Option (List FormRow))
    (h : opponent.strength_overall_away ≤ opponent.strength_overall_home + 500) :
    calculate_fixture_difficulty team opponent true form ≤
      calculate_fixture_difficulty team opponent false form := by
  apply round2_clamp_mono
  simp only [fixture_difficulty_raw]
  norm_num
  linarith

/-- Witness for C7 (amended) at equal venue strengths. -/
theorem home_le_away_of_bounded_gap_witness :
    (⟨"O", 1300, 1300⟩ : Team).strength_overall_away ≤
        (⟨"O", 1300, 1300⟩ : Team).strength_overall_home + 500 ∧
      calculate_fixture_difficulty ⟨"T", 1200, 1100⟩ ⟨"O", 1300, 1300⟩ true none ≤
        calculate_fixture_difficulty ⟨"T", 1200, 1100⟩ ⟨"O", 1300, 1300⟩ false none :=
  ⟨by norm_num,
   home_le_away_of_bounded_gap ⟨"T", 1200, 1100⟩ ⟨"O", 1300, 1300⟩ none (by norm_num)⟩

/-- C8: with no team-form table (None or empty) the engine still returns
a score: the three form terms contribute 0, so the result is exactly
clamp(0.4 × 5 × (venue-specific opponent overall strength / 1000) ∓ 0.5,
1, 5) rounded to 2 decimals. -/
theorem score_without_form_data (team opponent : Team) (is_home : Bool) :
    calculate_fixture_difficulty team opponent is_home none =
      round2 (max 1 (min 5 ((2/5) * 5 *
        ((if is_home then opponent.strength_overall_away else opponent.strength_overall_home) / 1000) +
        (if is_home then -(1/2) else (1/2))))) ∧
    calculate_fixture_difficulty team opponent is_home (some []) =
      round2 (max 1 (min 5 ((2/5) * 5 *
        ((if is_home then opponent.strength_overall_away else opponent.strength_overall_home) / 1000) +
        (if is_home then -(1/2) else (1/2))))) := by
  constructor
  · unfold calculate_fixture_difficulty
    rw [raw_no_form]
  · unfold calculate_fixture_difficulty
    rw [raw_empty_form, raw_no_form]

/-! ## Rolling form aggregator (`utils/scraper.py`) -/

/-- Zero-minute replacement from `get_player_match_history`
(scraper.py line 143): `df['minutes_safe'] = df['minutes'].replace(0, 1)`. -/
def minutes_safe (minutes : ℚ) : ℚ := if minutes = 0 then 1 else minutes

/-- A per-match per-90 rate (scraper.py lines 146–176), e.g.
`df['points_per90'] = (df['total_points'] / df['minutes_safe']) * 90`. -/
def per90_match (stat minutes : ℚ) : ℚ := stat / minutes_safe minutes * 90

/-- A season-level per-90 rate (`aggregate_player_stats`, scraper.py
lines 567–632): `np.where(total_minutes > 0, total * 90 / total_minutes, 0)`. -/
def per90_season (total total_minutes : ℚ) : ℚ :=
  if total_minutes > 0 then total * 90 / total_minutes else 0

/-- A season-level per-fixture ratio (`aggregate_player_stats`, scraper.py
lines 635–646): `np.where(fixtures_played > 0, total / fixtures_played, 0)`. -/
def ratio_per_fixture (total : ℚ) (fixtures_played : ℕ) : ℚ :=
  if 0 < fixtures_played then total / (fixtures_played : ℚ) else 0

/-- Trailing-window sum, pandas `xs.rolling(window, min_periods=1).sum()`
at position `i` (`calc_rolling`, scraper.py lines 239–273): the sum of
entries `max(0, i-window+1) .. i` (natural subtraction truncates at 0). -/
def rollingSum (xs : List ℚ) (window i : ℕ) : ℚ :=
  ((xs.take (i+1)).drop (i + 1 - window)).sum

/-- Windowed per-90 rate (`calc_rolling`, scraper.py lines 276–312):
`np.where(minutes_last_W > 0, stat_last_W * 90 / minutes_last_W, 0)`. -/
def per90_rolling (stat minutes : List ℚ) (window i : ℕ) : ℚ :=
  if rollingSum minutes window i > 0 then
    rollingSum stat window i * 90 / rollingSum minutes window i
  else 0

/-- The spec's formulation of the same window: the sum of the entries at
positions `max(0, i-window+1) .. i`, written as an interval sum.  Used to
compare the pandas rolling sum against the spec's wording. -/
def window_sum_spec (xs : List ℚ) (window i : ℕ) : ℚ :=
  ∑ j in Finset.Ico (i + 1 - window) (i + 1), xs.getD j 0

lemma sum_take_eq (xs : List ℚ) :
    ∀ n : ℕ, (xs.take n).sum = ∑ j in Finset.range n, xs.getD j 0 := by
  induction xs with
  | nil => intro n; simp [List.getD]
  | cons a t ih =>
    intro n
    cases n with
    | zero => simp
    | succ n =>
      rw [List.take_succ_cons, List.sum_cons, ih n, Finset.sum_range_succ']
      simp [List.getD_cons_succ, List.getD_cons_zero]
      ring

/-- The pandas trailing-window sum agrees with the spec's interval sum. -/
lemma rollingSum_eq_spec (xs : List ℚ) (window i : ℕ) :
    rollingSum xs window i = window_sum_spec xs window i := by
  unfold rollingSum window_sum_spec
  have h1 : (xs.take (i+1)).take (i + 1 - window) = xs.take (min (i + 1 - window) (i+1)) :=
    List.take_take _ _ _
  have h2 : min (i + 1 - window) (i+1) = i + 1 - window := by omega
  have h3 : ((xs.take (i+1)).take (i + 1 - window)).sum +
      ((xs.take (i+1)).drop (i + 1 - window)).sum = (xs.take (i+1)).sum := by
    rw [← List.sum_append, List.take_append_drop]
  rw [h1, h2] at h3
  have h4 := sum_take_eq xs (i+1)
  have h5 := sum_take_eq xs (i + 1 - window)
  rw [Finset.sum_Ico_eq_sub _ (by omega : i + 1 - window ≤ i + 1), ← h4, ← h5]
  linarith

/-- C2: for every stat/minutes sequence, every window size W ∈ {3,5,10}
and every position i, the windowed per-90 rate equals
(sum of the stat over positions max(0, i−W+1)..i) × 90 / (sum of minutes
over the same positions) when that minutes sum is positive, and 0 when
the minutes sum is 0. -/
theorem rolling_per90_spec (stat minutes : List ℚ) (window i : ℕ)
    (hW : window = 3 ∨ window = 5 ∨ window = 10) :
    (0 < window_sum_spec minutes window i →
      per90_rolling stat minutes window i =
        window_sum_spec stat window i * 90 / window_sum_spec minutes window i) ∧
    (window_sum_spec minutes window i = 0 → per90_rolling stat minutes window i = 0) := by
  clear hW
  unfold per90_rolling
  rw [rollingSum_eq_spec stat, rollingSum_eq_spec minutes]
  constructor
  · intro h
    rw [if_pos h]
  · intro h
    rw [h]
    simp

/-- Witness for C2: the spec's worked example — minutes [90,90,0],
points [5,2,0], window 3, last position — gives per-90 exactly 3.5. -/
theorem rolling_per90_spec_witness :
    ((3:ℕ) = 3 ∨ (3:ℕ) = 5 ∨ (3:ℕ) = 10) ∧
    (0:ℚ) < window_sum_spec [90, 90, 0] 3 2 ∧
    per90_rolling [5, 2, 0] [90, 90, 0] 3 2 = 7/2 := by
  refine ⟨Or.inl rfl, ?_, ?_⟩
  · norm_num [window_sum_spec, Finset.sum_Ico_eq_sum_range, Finset.sum_range_succ]
  · have h := (rolling_per90_spec [5, 2, 0] [90, 90, 0] 3 2 (Or.inl rfl)).1
      (by norm_num [window_sum_spec, Finset.sum_Ico_eq_sum_range, Finset.sum_range_succ])
    rw [h]
    norm_num [window_sum_spec, Finset.sum_Ico_eq_sum_range, Finset.sum_range_succ]

/-- C6 counterexample: the per-match per-90 computation does not yield 0
at zero minutes — `minutes.replace(0, 1)` makes it return the raw stat
times 90 instead (here 1 point in 0 minutes gives 90, not 0). -/
theorem per_match_per90_zero_minutes :
    per90_match 1 0 = 90 ∧ per90_match 1 0 ≠ 0 := by
  norm_num [per90_match, minutes_safe]

/-- C6 (amended): the rolling-window and season per-90/ratio computations
branch on the relevant minutes (or fixtures-played) total being positive
and yield 0 when it is 0; the per-match per-90 computations instead
substitute 1 for a zero minutes value (yielding stat × 90), and no
computation ever divides by zero, since the substituted denominator is
never 0. -/
theorem per90_division_guards :
    (∀ m : ℚ, minutes_safe m ≠ 0) ∧
    (∀ stat : ℚ, per90_match stat 0 = stat * 90) ∧
    (∀ total : ℚ, per90_season total 0 = 0) ∧
    (∀ total : ℚ, ratio_per_fixture total 0 = 0) ∧
    (∀ stat minutes window i, rollingSum minutes window i = 0 →
      per90_rolling stat minutes window i = 0) := by
  refine ⟨?_, ?_, ?_, ?_, ?_⟩
  · intro m
    unfold minutes_safe
    split
    · exact one_ne_zero
    · assumption
  · intro stat
    norm_num [per90_match, minutes_safe]
  · intro total
    norm_num [per90_season]
  · intro total
    norm_num [ratio_per_fixture]
  · intro stat minutes window i h
    simp [per90_rolling, h]

/-- Witness for C6 (amended) at a window whose minutes sum to 0. -/
theorem per90_division_guards_witness :
    rollingSum [0] 3 0 = 0 ∧ per90_rolling [5] [0] 3 0 = 0 := by
  constructor
  · norm_num [rollingSum]
  · exact per90_division_guards.2.2.2.2 [5] [0] 3 0 (by norm_num [rollingSum])

/-! ## Hot-form flag (`aggregate_player_stats` and the Overview page) -/

/-- The fields of one row of the season aggregate table that feed the
hot-form flag (scraper.py lines 648–652). -/
structure SeasonRow where
  points_per90_last_5 : ℚ
  points_per90_season : ℚ
  minutes_last_5 : ℚ
  fixtures_played : ℕ

/-- Points form trend (scraper.py line 649):
`points_per90_last_5 - points_per90_season`. -/
def form_trend_points (r : SeasonRow) : ℚ :=
  r.points_per90_last_5 - r.points_per90_season

/-- The hot-form flag of the season aggregate table (scraper.py line 652):
`(form_trend_points > 1.0) & (fixtures_played >= 5)`. -/
def hot_form (r : SeasonRow) : Bool :=
  decide (form_trend_points r > 1) && decide (r.fixtures_played ≥ 5)

/-- The Overview page's fallback flag (1_Overview.py line 654), used only
when the `hot_form` column is absent from the table:
`(form_trend_points > 1.0) & (minutes_last_5 >= 270)`. -/
def hot_form_overview (r : SeasonRow) : Bool :=
  decide (form_trend_points r > 1) && decide (r.minutes_last_5 ≥ 270)

/-- C3 counterexample: a player with form trend 3 > 1, 5 fixtures played
but only 50 trailing-window minutes is flagged hot by the season
aggregate table, although the claimed 270-minute condition fails. -/
theorem hot_form_minutes_claim_fails :
    ¬ (hot_form ⟨3, 0, 50, 5⟩ = true ↔
        (form_trend_points ⟨3, 0, 50, 5⟩ > 1 ∧
          (⟨3, 0, 50, 5⟩ : SeasonRow).minutes_last_5 ≥ 270)) := by
  intro h
  have h1 : hot_form ⟨3, 0, 50, 5⟩ = true := by
    norm_num [hot_form, form_trend_points]
  have h2 := (h.mp h1).2
  norm_num at h2

/-- C3 (amended): in the season aggregate table a player is flagged hot
exactly when the points form trend exceeds 1.0 AND at least 5 fixtures
have been played; the 270-trailing-minutes condition is used only by the
Overview page's fallback flag, when the aggregate column is absent. -/
theorem hot_form_iff (r : SeasonRow) :
    (hot_form r = true ↔ (form_trend_points r > 1 ∧ r.fixtures_played ≥ 5)) ∧
    (hot_form_overview r = true ↔ (form_trend_points r > 1 ∧ r.minutes_last_5 ≥ 270)) := by
  constructor <;> simp [hot_form, hot_form_overview]

/-! ## Fallback fixture difficulty (`pages/2_Player_Detail.py`) -/

/-- Strength-derived fallback FDR (2_Player_Detail.py lines 842–857):
normalize the opponent's venue-specific overall strength from
[1000, 1400] to [1, 5], multiply by 0.85 (home) or 1.15 (away), then
clamp to [1, 5]. -/
def fallback_fdr (opp_strength : ℚ) (is_home : Bool) : ℚ :=
  let normalized := (opp_strength - 1000) / (1400 - 1000)
  let fdr := 1 + normalized * 4
  let fdr2 := if is_home then fdr * (85/100) else fdr * (115/100)
  max 1 (min 5 fdr2)

/-- FDR selection (2_Player_Detail.py lines 830–858): take the provider
difficulty (`team_h_difficulty` for home, `team_a_difficulty` for away;
`none` models a NaN value, the `pd.isna(fdr)` branch); fall back to the
strength-derived value when the provider difficulty is 0 or NaN,
otherwise use it unchanged. -/
def fixture_fdr (provider : Option ℚ) (opp_strength : ℚ) (is_home : Bool) : ℚ :=
  match provider with
  | none => fallback_fdr opp_strength is_home
  | some v => if v = 0 then fallback_fdr opp_strength is_home else v

/-- C9: with no usable provider difficulty (0 or missing) the fallback
FDR equals clamp((1 + 4 × (strength − 1000) / 400) × (0.85 if home else
1.15), 1, 5); a nonzero provider difficulty is used unchanged. -/
theorem fallback_fdr_spec (s : ℚ) (is_home : Bool) :
    fixture_fdr none s is_home =
      max 1 (min 5 ((1 + 4 * (s - 1000) / 400) * (if is_home then 85/100 else 115/100))) ∧
    fixture_fdr (some 0) s is_home =
      max 1 (min 5 ((1 + 4 * (s - 1000) / 400) * (if is_home then 85/100 else 115/100))) ∧
    (∀ v : ℚ, v ≠ 0 → fixture_fdr (some v) s is_home = v) := by
  refine ⟨?_, ?_, ?_⟩
  · cases is_home <;> · simp only [fixture_fdr, fallback_fdr]; norm_num; congr 1; congr 1; ring
  · cases is_home <;> · simp only [fixture_fdr, fallback_fdr]; norm_num; congr 1; congr 1; ring
  · intro v hv
    simp [fixture_fdr, hv]

/-- Witness for C9 at a provider difficulty of 4. -/
theorem fallback_fdr_spec_witness :
    (4:ℚ) ≠ 0 ∧ fixture_fdr (some 4) 1300 true = 4 :=
  ⟨by norm_num, (fallback_fdr_spec 1300 true).2.2 4 (by norm_num)⟩

/-! ## First full gameweek (`utils/fixture_analyzer.py`) -/

/-- A fixture row (the fields used by `find_first_full_gameweek` and
`get_upcoming_fixtures`): gameweek (`event`, possibly NaN), finished
flag, and the two team ids. -/
structure Fixture where
  event : Option ℕ
  finished : Bool
  team_h : ℕ
  team_a : ℕ

/-- The set of teams appearing in the unfinished fixtures of gameweek
`gw` (fixture_analyzer.py lines 93–102): filter on
`event == gw and not finished`, then insert `team_h` and `team_a` of each
row into a set. -/
def teamsWithFixtures (fixtures : List Fixture) (gw : ℕ) : Finset ℕ :=
  (fixtures.filter (fun f => f.event == some gw && f.finished == false)).foldr
    (fun f s => insert f.team_h (insert f.team_a s)) ∅

/-- The 75% threshold test (fixture_analyzer.py line 108):
`num_teams >= total_teams * 0.75`. -/
def gwQualifies (total_teams : ℕ) (fixtures : List Fixture) (gw : ℕ) : Bool :=
  decide (((teamsWithFixtures fixtures gw).card : ℚ) ≥ (total_teams : ℚ) * (3/4))

/-- `FixtureAnalyzer.find_first_full_gameweek` (fixture_analyzer.py lines
83–113): `None` when no current gameweek is known; otherwise scan
`range(current_gw, current_gw + 10)` for the first qualifying gameweek,
falling back to the current gameweek. -/
def find_first_full_gameweek (total_teams : ℕ) (fixtures : List Fixture)
    (current_gw : Option ℕ) : Option ℕ :=
  match current_gw with
  | none => none
  | some cgw =>
      some (((List.range' cgw 10).find? (gwQualifies total_teams fixtures)).getD cgw)

/-- `FixtureAnalyzer.get_upcoming_fixtures` (fixture_analyzer.py lines
115–141): empty when no current gameweek is known; otherwise keep the
unfinished fixtures whose gameweek lies in the `next_n`-wide window
starting at the first full gameweek.  The source's final
`sort_values(['event', 'kickoff_time'])` only reorders the returned rows
and is not modelled; the claim below concerns only emptiness. -/
def get_upcoming_fixtures (total_teams : ℕ) (fixtures : List Fixture)
    (current_gw : Option ℕ) (next_n : ℕ) : List Fixture :=
  match current_gw with
  | none => []
  | some cgw =>
      let ffg := (find_first_full_gameweek total_teams fixtures (some cgw)).getD cgw
      fixtures.filter (fun f =>
        f.finished == false &&
        match f.event with
        | none => false
        | some e => decide (ffg ≤ e) && decide (e < ffg + next_n))

lemma find?_range'_none (p : ℕ → Bool) : ∀ (n s : ℕ), (∀ k, k < n → p (s+k) = false) →
    (List.range' s n).find? p = none := by
  intro n
  induction n with
  | zero => intro s _; simp
  | succ n ih =>
    intro s h
    rw [List.range'_succ, List.find?_cons]
    have h0 : p s = false := by have := h 0 (by omega); simpa using this
    rw [h0]
    exact ih (s+1) (fun k hk => by
      have := h (k+1) (by omega)
      simpa [Nat.add_assoc, Nat.add_comm 1 k] using this)

lemma find?_range'_some (p : ℕ → Bool) : ∀ (n s k : ℕ), k < n → p (s+k) = true →
    (∀ j, j < k → p (s+j) = false) → (List.range' s n).find? p = some (s+k) := by
  intro n
  induction n with
  | zero => intro s k hk _ _; exact absurd hk (Nat.not_lt_zero k)
  | succ n ih =>
    intro s k hk hp hmin
    rw [List.range'_succ, List.find?_cons]
    by_cases h0 : p s = true
    · have hk0 : k = 0 := by
        by_contra hne
        have h00 := hmin 0 (by omega)
        rw [Nat.add_zero] at h00
        rw [h00] at h0
        exact Bool.false_ne_true h0
      subst hk0
      rw [h0]
      simp
    · have h0' : p s = false := by simpa using h0
      rw [h0']
      have hkpos : k ≠ 0 := by
        intro hke
        subst hke
        rw [Nat.add_zero] at hp
        exact h0 hp
      obtain ⟨k', rfl⟩ := Nat.exists_eq_succ_of_ne_zero hkpos
      have hk' : k' < n := by omega
      have hrec := ih (s+1) k' hk'
        (by rw [show s+1+k' = s+(k'+1) by omega]; exact hp)
        (fun j hj => by rw [show s+1+j = s+(j+1) by omega]; exact hmin (j+1) (by omega))
      rw [show s + (k'+1) = s+1+k' by omega]
      exact hrec

/-- C10: `find_first_full_gameweek` examines only the 10 gameweeks from
`current_gw` to `current_gw + 9`: it returns the first of these whose
unfinished fixtures involve at least 75% of all teams, `current_gw` when
none of the 10 qualifies, and `None` when the current gameweek is
unknown — in which case `get_upcoming_fixtures` returns an empty fixture
set rather than failing. -/
theorem find_first_full_gameweek_correct (total : ℕ) (fixtures : List Fixture) :
    find_first_full_gameweek total fixtures none = none ∧
    get_upcoming_fixtures total fixtures none 5 = [] ∧
    (∀ cgw : ℕ, (∀ k, k < 10 → gwQualifies total fixtures (cgw + k) = false) →
      find_first_full_gameweek total fixtures (some cgw) = some cgw) ∧
    (∀ cgw k : ℕ, k < 10 → gwQualifies total fixtures (cgw + k) = true →
      (∀ j, j < k → gwQualifies total fixtures (cgw + j) = false) →
      find_first_full_gameweek total fixtures (some cgw) = some (cgw + k)) := by
  refine ⟨rfl, rfl, ?_, ?_⟩
  · intro cgw h
    simp only [find_first_full_gameweek]
    rw [find?_range'_none _ 10 cgw h]
    rfl
  · intro cgw k hk hq hmin
    simp only [find_first_full_gameweek]
    rw [find?_range'_some _ 10 cgw k hk hq hmin]
    rfl

/-- Witness for C10: two teams, one unfinished fixture in gameweek 5 —
that gameweek involves 100% ≥ 75% of the teams, so the scan stops there. -/
theorem find_first_full_gameweek_witness :
    (0:ℕ) < 10 ∧
    gwQualifies 2 [⟨some 5, false, 1, 2⟩] (5 + 0) = true ∧
    find_first_full_gameweek 2 [⟨some 5, false, 1, 2⟩] (some 5) = some (5 + 0) := by
  refine ⟨by norm_num, ?_, ?_⟩
  · norm_num [gwQualifies, teamsWithFixtures, List.filter]
  · exact (find_first_full_gameweek_correct 2 [⟨some 5, false, 1, 2⟩]).2.2.2 5 0
      (by norm_num)
      (by norm_num [gwQualifies, teamsWithFixtures, List.filter])
      (fun j hj => absurd hj (Nat.not_lt_zero j))

end FPL
